import Mathlib

/-!
Verification of the "big three" natal-chart service (bigthree.js and its
sibling handler file) against its natural-language specification.

The JavaScript source is shallowly embedded in Lean:

* JS floating-point numbers are modelled as real numbers.
* The external collaborators (astronomy-engine, luxon, tz-lookup, the
  Nominatim geocoder) are modelled as an explicit `Env` record of abstract
  functions; a UTC instant is an abstract real number produced by the
  calendar collaborator.  `Astronomy.SiderealTime` and `MakeTime(..).ut`
  are the fields `sidereal` and `jd` of that record, so quantifying over
  an instant becomes quantifying over the collaborator outputs.
* `Math.atan2`, JS `%`, `Number(..)`, `String(..).padStart`, `split`,
  `includes` are given direct total models below.

Definitions named after the source keep the source names; `spec...`
definitions transcribe the specification text and are used only on the
specification side of refinement statements.
-/

namespace BigThree

open Classical

/-- Truncation toward zero, as used by the JS `%` operator. -/
noncomputable def truncR (r : ℝ) : ℤ := if 0 ≤ r then ⌊r⌋ else ⌈r⌉

/-- The JS remainder operator `x % y` on finite doubles, over the reals:
`x - y * trunc (x / y)`, so the result carries the sign of `x`. -/
noncomputable def jsRem (x y : ℝ) : ℝ := x - y * truncR (x / y)

/-- Source `norm360` (both files): `x = x % 360; return x < 0 ? x + 360 : x`. -/
noncomputable def norm360 (x : ℝ) : ℝ :=
  let r := jsRem x 360
  if r < 0 then r + 360 else r

/-- Specification 4.1: `normalizeDegrees(x)` returns `x mod 360` mapped into
`[0,360)`.  Transcribed from the spec text, for refinement statements. -/
noncomputable def specNormalizeDegrees (x : ℝ) : ℝ := x - 360 * ⌊x / 360⌋

/-- JS `Math.atan2 y x`: the two-argument arctangent, with the JS/IEEE
branch layout on the axes (signed zeros collapse to the single real `0`). -/
noncomputable def atan2 (y x : ℝ) : ℝ :=
  if 0 < x then Real.arctan (y / x)
  else if x < 0 then
    (if 0 ≤ y then Real.arctan (y / x) + Real.pi else Real.arctan (y / x) - Real.pi)
  else if 0 < y then Real.pi / 2
  else if y < 0 then -(Real.pi / 2)
  else 0

/-- Source `meanObliquityDeg` (all three copies are identical): Meeus
polynomial in Julian centuries from J2000, arcseconds over 3600.  The
argument is the Julian date `t.ut` supplied by the ephemeris collaborator. -/
noncomputable def meanObliquityDeg (jd : ℝ) : ℝ :=
  let T := (jd - 2451545.0) / 36525.0
  (84381.448 - 46.8150 * T - 0.00059 * T * T + 0.001813 * T * T * T) / 3600.0

/-- Source `gmstDegrees` / `gmstDeg`: `norm360(stHours * 15)`, where
`stHours` is `Astronomy.SiderealTime` at the instant. -/
noncomputable def gmstDegrees (st : ℝ) : ℝ := norm360 (st * 15)

/-- First `ascendantLongitudeDeg` in `bigthree.js` (lines 45-59), as a
function of the collaborator outputs at the instant: `st` is the sidereal
time in hours and `jd` the Julian date. -/
noncomputable def ascendantLongitudeDeg1 (st jd latDeg lonDeg : ℝ) : ℝ :=
  let theta := gmstDegrees st + lonDeg
  let eps := meanObliquityDeg jd
  let thetaRad := theta * Real.pi / 180
  let epsRad := eps * Real.pi / 180
  let latRad := latDeg * Real.pi / 180
  let y := Real.sin thetaRad * Real.cos epsRad - Real.tan latRad * Real.sin epsRad
  let x := Real.cos thetaRad
  norm360 (atan2 y x * 180 / Real.pi)

/-- Second `ascendantLongitudeDeg` in `bigthree.js` (lines 140-161): the
handler variant that uses `atan2(cos LST, -(sin LST cos eps + tan lat sin eps))`. -/
noncomputable def ascendantLongitudeDeg2 (st jd latDeg lonDeg : ℝ) : ℝ :=
  let rad := Real.pi / 180
  let lstDeg := norm360 (gmstDegrees st + lonDeg)
  let epsDeg := meanObliquityDeg jd
  let L := lstDeg * rad
  let phi := latDeg * rad
  let eps := epsDeg * rad
  norm360 (atan2 (Real.cos L) (-(Real.sin L * Real.cos eps + Real.tan phi * Real.sin eps)) * 180 / Real.pi)

/-- `ascendantLongitudeDeg` in the unnamed file `part_000` (lines 43-55);
textually the same computation as the first `bigthree.js` copy. -/
noncomputable def ascendantLongitudeDeg3 (st jd latDeg lonDeg : ℝ) : ℝ :=
  let theta := gmstDegrees st + lonDeg
  let eps := meanObliquityDeg jd
  let thetaRad := theta * Real.pi / 180
  let epsRad := eps * Real.pi / 180
  let latRad := latDeg * Real.pi / 180
  let y := Real.sin thetaRad * Real.cos epsRad - Real.tan latRad * Real.sin epsRad
  let x := Real.cos thetaRad
  norm360 (atan2 y x * 180 / Real.pi)

/-- Specification 4.4: the obliquity polynomial as written in the spec,
with powers written as squares and cubes. -/
noncomputable def specMeanObliquityDegrees (jd : ℝ) : ℝ :=
  let T := (jd - 2451545.0) / 36525.0
  (84381.448 - 46.8150 * T - 0.00059 * T ^ 2 + 0.001813 * T ^ 3) / 3600.0

/-- Specification 4.5 / claim C1: the ascendant formula exactly as the claim
states it: `normalizeDegrees` of the degree value of
`atan2(sin LST cos eps - tan lat sin eps, cos LST)` with
`LST = normalizeDegrees(GMST + longitude)` and
`GMST = normalizeDegrees(15 * siderealTimeHours)`. -/
noncomputable def specAscendantFormulaA (st jd latDeg lonDeg : ℝ) : ℝ :=
  let gmst := specNormalizeDegrees (15 * st)
  let lst := specNormalizeDegrees (gmst + lonDeg)
  let eps := specMeanObliquityDegrees jd
  let lstRad := lst * Real.pi / 180
  let epsRad := eps * Real.pi / 180
  let latRad := latDeg * Real.pi / 180
  specNormalizeDegrees
    (atan2 (Real.sin lstRad * Real.cos epsRad - Real.tan latRad * Real.sin epsRad)
      (Real.cos lstRad) * 180 / Real.pi)

/-- The formula actually used by the second `bigthree.js` handler, written
on the specification side: `normalizeDegrees` of the degree value of
`atan2(cos LST, -(sin LST cos eps + tan lat sin eps))`. -/
noncomputable def specAscendantFormulaB (st jd latDeg lonDeg : ℝ) : ℝ :=
  let gmst := specNormalizeDegrees (15 * st)
  let lst := specNormalizeDegrees (gmst + lonDeg)
  let eps := specMeanObliquityDegrees jd
  let lstRad := lst * Real.pi / 180
  let epsRad := eps * Real.pi / 180
  let latRad := latDeg * Real.pi / 180
  specNormalizeDegrees
    (atan2 (Real.cos lstRad)
      (-(Real.sin lstRad * Real.cos epsRad + Real.tan latRad * Real.sin epsRad)) * 180 / Real.pi)

lemma jsRem_def (x y : ℝ) : jsRem x y = x - y * truncR (x / y) := rfl

lemma jsRem360_sub_int (x : ℝ) : ∃ k : ℤ, jsRem x 360 = x - 360 * k :=
  ⟨truncR (x / 360), rfl⟩

lemma jsRem360_lt (x : ℝ) : jsRem x 360 < 360 := by
  unfold jsRem truncR
  split
  · have h1 : (⌊x / 360⌋ : ℝ) ≤ x / 360 := Int.floor_le _
    nlinarith [Int.lt_floor_add_one (x / 360)]
  · have h2 : x / 360 ≤ (⌈x / 360⌉ : ℝ) := Int.le_ceil _
    nlinarith

lemma jsRem360_neg_lt (x : ℝ) : -360 < jsRem x 360 := by
  unfold jsRem truncR
  split
  · have h1 : (⌊x / 360⌋ : ℝ) ≤ x / 360 := Int.floor_le _
    nlinarith
  · have h2 : (⌈x / 360⌉ : ℝ) < x / 360 + 1 := Int.ceil_lt_add_one _
    nlinarith

lemma jsRem360_nonneg_of_nonneg {x : ℝ} (hx : 0 ≤ x) : 0 ≤ jsRem x 360 := by
  unfold jsRem truncR
  have hq : 0 ≤ x / 360 := by positivity
  rw [if_pos hq]
  have h1 : (⌊x / 360⌋ : ℝ) ≤ x / 360 := Int.floor_le _
  nlinarith

lemma norm360_ite (x : ℝ) :
    norm360 x = if jsRem x 360 < 0 then jsRem x 360 + 360 else jsRem x 360 := rfl

lemma norm360_sub_int (x : ℝ) : ∃ k : ℤ, norm360 x = x - 360 * k := by
  rw [norm360_ite]
  obtain ⟨k, hk⟩ := jsRem360_sub_int x
  split
  · exact ⟨k - 1, by rw [hk]; push_cast; ring⟩
  · exact ⟨k, hk⟩

lemma norm360_nonneg (x : ℝ) : 0 ≤ norm360 x := by
  rw [norm360_ite]
  split
  · have := jsRem360_neg_lt x
    linarith
  · linarith [not_lt.mp (by assumption : ¬ jsRem x 360 < 0)]

lemma norm360_lt (x : ℝ) : norm360 x < 360 := by
  rw [norm360_ite]
  split
  · linarith [(by assumption : jsRem x 360 < 0)]
  · exact jsRem360_lt x

/-- Any representative of `x` modulo 360 lying in `[0,360)` is the value of
the spec normalization. -/
lemma eq_specNormalize_of (x r : ℝ) (k : ℤ) (h : r = x - 360 * k)
    (h0 : 0 ≤ r) (h1 : r < 360) : r = specNormalizeDegrees x := by
  unfold specNormalizeDegrees
  have hx : x / 360 = r / 360 + k := by
    field_simp
    linarith [h]
  have hk : ⌊x / 360⌋ = k := by
    rw [Int.floor_eq_iff, hx]
    constructor
    · have hr : 0 ≤ r / 360 := by positivity
      linarith
    · have hr : r / 360 < 1 := by
        rw [div_lt_one (by norm_num : (0:ℝ) < 360)]
        exact h1
      linarith
  rw [hk, h]

/-- The source `norm360` computes exactly the specification normalization. -/
lemma norm360_eq_spec (x : ℝ) : norm360 x = specNormalizeDegrees x := by
  obtain ⟨k, hk⟩ := norm360_sub_int x
  exact eq_specNormalize_of x _ k hk (norm360_nonneg x) (norm360_lt x)

lemma specNormalizeDegrees_nonneg (x : ℝ) : 0 ≤ specNormalizeDegrees x := by
  rw [← norm360_eq_spec]; exact norm360_nonneg x

lemma specNormalizeDegrees_lt (x : ℝ) : specNormalizeDegrees x < 360 := by
  rw [← norm360_eq_spec]; exact norm360_lt x

lemma sin_deg_sub_int (x : ℝ) (k : ℤ) :
    Real.sin ((x - 360 * k) * Real.pi / 180) = Real.sin (x * Real.pi / 180) := by
  have h : (x - 360 * k) * Real.pi / 180 = x * Real.pi / 180 + (-k : ℤ) * (2 * Real.pi) := by
    push_cast
    ring
  rw [h, Real.sin_add_int_mul_two_pi]

lemma cos_deg_sub_int (x : ℝ) (k : ℤ) :
    Real.cos ((x - 360 * k) * Real.pi / 180) = Real.cos (x * Real.pi / 180) := by
  have h : (x - 360 * k) * Real.pi / 180 = x * Real.pi / 180 + (-k : ℤ) * (2 * Real.pi) := by
    push_cast
    ring
  rw [h, Real.cos_add_int_mul_two_pi]

lemma sin_deg_specNormalize (x : ℝ) :
    Real.sin (specNormalizeDegrees x * Real.pi / 180) = Real.sin (x * Real.pi / 180) := by
  unfold specNormalizeDegrees
  exact sin_deg_sub_int x _

lemma cos_deg_specNormalize (x : ℝ) :
    Real.cos (specNormalizeDegrees x * Real.pi / 180) = Real.cos (x * Real.pi / 180) := by
  unfold specNormalizeDegrees
  exact cos_deg_sub_int x _

lemma specNormalize_eq_self {x : ℝ} (h0 : 0 ≤ x) (h1 : x < 360) :
    specNormalizeDegrees x = x := by
  unfold specNormalizeDegrees
  have hf : ⌊x / 360⌋ = 0 := by
    rw [Int.floor_eq_zero_iff]
    constructor
    · positivity
    · rw [div_lt_one (by norm_num : (0:ℝ) < 360)] at *
      simpa using h1
  rw [hf]
  push_cast
  ring

lemma atan2_zero_one : atan2 0 1 = 0 := by
  unfold atan2
  rw [if_pos (by norm_num : (0:ℝ) < 1)]
  norm_num [Real.arctan_zero]

lemma atan2_one_zero : atan2 1 0 = Real.pi / 2 := by
  unfold atan2
  rw [if_neg (by norm_num : ¬ (0:ℝ) < 0), if_neg (by norm_num : ¬ (0:ℝ) < 0),
    if_pos (by norm_num : (0:ℝ) < 1)]

lemma meanObliquity_eq_spec (jd : ℝ) :
    meanObliquityDeg jd = specMeanObliquityDegrees jd := by
  unfold meanObliquityDeg specMeanObliquityDegrees
  ring

/-- The first `bigthree.js` ascendant implementation computes exactly the
ascendant formula of the specification: the missing normalization of the
raw local sidereal time is invisible through `sin`/`cos`. -/
lemma asc1_eq_specA (st jd lat lon : ℝ) :
    ascendantLongitudeDeg1 st jd lat lon = specAscendantFormulaA st jd lat lon := by
  simp only [ascendantLongitudeDeg1, specAscendantFormulaA, gmstDegrees]
  rw [meanObliquity_eq_spec]
  simp only [norm360_eq_spec]
  rw [mul_comm st 15]
  rw [sin_deg_specNormalize (specNormalizeDegrees (15 * st) + lon),
    cos_deg_specNormalize (specNormalizeDegrees (15 * st) + lon)]

/-- The `part_000` ascendant implementation is textually the first one. -/
lemma asc3_eq_asc1 (st jd lat lon : ℝ) :
    ascendantLongitudeDeg3 st jd lat lon = ascendantLongitudeDeg1 st jd lat lon := rfl

/-- The second `bigthree.js` ascendant implementation computes the
`atan2(cos LST, -(sin LST cos eps + tan lat sin eps))` variant. -/
lemma asc2_eq_specB (st jd lat lon : ℝ) :
    ascendantLongitudeDeg2 st jd lat lon = specAscendantFormulaB st jd lat lon := by
  simp only [ascendantLongitudeDeg2, specAscendantFormulaB]
  rw [meanObliquity_eq_spec]
  simp only [norm360_eq_spec, gmstDegrees]
  rw [mul_comm st 15]
  ring_nf

lemma specA_at0 : specAscendantFormulaA 0 2451545 0 0 = 0 := by
  have h0 : specNormalizeDegrees 0 = 0 := specNormalize_eq_self (le_refl 0) (by norm_num)
  simp only [specAscendantFormulaA]
  norm_num [h0, Real.tan_zero, atan2_zero_one]

lemma specB_at0 : specAscendantFormulaB 0 2451545 0 0 = 90 := by
  have h0 : specNormalizeDegrees 0 = 0 := specNormalize_eq_self (le_refl 0) (by norm_num)
  have h90 : specNormalizeDegrees 90 = 90 :=
    specNormalize_eq_self (by norm_num) (by norm_num)
  simp only [specAscendantFormulaB]
  norm_num [h0, Real.tan_zero, atan2_one_zero]
  rw [show Real.pi / 2 * 180 / Real.pi = 90 by
    field_simp
    ring]
  exact h90

lemma asc1_at0 : ascendantLongitudeDeg1 0 2451545 0 0 = 0 :=
  (asc1_eq_specA 0 2451545 0 0).trans specA_at0

lemma asc2_at0 : ascendantLongitudeDeg2 0 2451545 0 0 = 90 :=
  (asc2_eq_specB 0 2451545 0 0).trans specB_at0

/-- A JS value as it can appear in a JSON request body field. -/
inductive JsVal where
  | undefined
  | null
  | str (s : String)
  | num (x : ℝ)
  | boolean (b : Bool)

/-- The check `typeof v === "number"`. -/
def JsVal.isNum : JsVal → Bool
  | .num _ => true
  | _ => false

/-- Numeric payload of a field; the handlers read it only under an
`isNum` guard. -/
noncomputable def JsVal.numVal : JsVal → ℝ
  | .num x => x
  | _ => 0

/-- String payload of a field; the handlers read it only after a
`typeof v === "string"` check. -/
def JsVal.strVal : JsVal → String
  | .str s => s
  | _ => ""

/-- JS truthiness of a body field (`!date` is its negation).  The numeric
case requires a classical decision over the idealized reals. -/
noncomputable def jsTruthy : JsVal → Bool
  | .undefined => false
  | .null => false
  | .boolean b => b
  | .str s => !(s == "")
  | .num x => decide (x ≠ 0)

/-- JS `s.includes(":")`, via the character list of the string. -/
def strContainsColon (s : String) : Bool := s.toList.contains ':'

/-- The guard `typeof time === "string" && time.includes(":")`. -/
def isTimeStr : JsVal → Bool
  | .str s => strContainsColon s
  | _ => false

/-- JS `String.prototype.split` with separator `":"`. -/
def jsSplitColon (s : String) : List String :=
  (s.toList.splitOn ':').map List.asString

/-- JS `Number(..)` on the substrings produced by splitting an `"HH:MM"`
string: the empty string parses as `0`, a string of decimal digits as that
decimal value, anything else as `NaN`, modelled as `none`.  (Signs,
blanks, dots and exponents are outside this model; the handlers feed the
parser only colon-free fragments of the `time` field.) -/
def jsNumber (s : String) : Option Nat :=
  if s.toList = [] then some 0
  else if s.toList.all Char.isDigit then
    some (s.toList.foldl (fun acc c => 10 * acc + (c.toNat - 48)) 0)
  else none

/-- JS `String(n)` for the parsed hour/minute values: `NaN` prints as
`"NaN"`, a natural number in decimal. -/
def jsNumToString : Option Nat → String
  | none => "NaN"
  | some n => toString n

/-- JS `.padStart(2, "0")`. -/
def pad2 (s : String) : String :=
  if 2 ≤ s.length then s else if s.length = 1 then "0" ++ s else "00"

/-- `time.split(":").map(Number)` destructured as `[hh, mm]`. -/
def parseHM (s : String) : Option Nat × Option Nat :=
  let parts := jsSplitColon s
  (jsNumber (parts.getD 0 ""), jsNumber (parts.getD 1 ""))

/-- The JSON body fields the handlers read; absent fields are `undefined`. -/
structure Body where
  date : JsVal := .undefined
  time : JsVal := .undefined
  lat : JsVal := .undefined
  lon : JsVal := .undefined
  place : JsVal := .undefined

/-- An incoming HTTP request: method plus optional JSON body;
`req.body || {}` supplies the empty default. -/
structure Req where
  method : String
  body : Option Body := none

def Req.bodyOr (r : Req) : Body := r.body.getD {}

/-- The JSON response bodies the handlers can produce. -/
inductive RespBody where
  | errMsg (msg : String)
  | health (ok : Bool) (hint : String)
  | chart (tz : String) (sunSign moonSign ascSign : Option String)
  | chartGeo (tz : String) (lat lon : ℝ) (sunSign moonSign ascSign : Option String)
  | empty

/-- An HTTP response: status code and body. -/
structure Resp where
  status : Nat
  body : RespBody

/-- The external collaborators, as abstract total functions: `tz-lookup`
(which may throw, hence `Except`), luxon `DateTime.fromISO` composed with
`toUTC().toJSDate()` (`none` models an invalid `DateTime`), the
astronomy-engine ecliptic longitudes of Sun and Moon, `SiderealTime` and
the Julian date `MakeTime(..).ut` at a UTC instant, the Nominatim
geocoder (which throws on failure), and JS number printing for template
interpolation of non-string fields. -/
structure Env where
  tzlookup : ℝ → ℝ → Except String String
  fromISO : String → String → Option ℝ
  sunElon : ℝ → ℝ
  moonElon : ℝ → ℝ
  sidereal : ℝ → ℝ
  jd : ℝ → ℝ
  geocode : String → Except String (ℝ × ℝ)
  numToString : ℝ → String

/-- The fixed ordered sign table, identical in both source files. -/
def SIGNS_FR : List String :=
  ["Bélier", "Taureau", "Gémeaux", "Cancer", "Lion", "Vierge",
   "Balance", "Scorpion", "Sagittaire", "Capricorne", "Verseau", "Poissons"]

/-- Source `signFromLon`: normalize via `((lonDeg % 360) + 360) % 360`,
then index the sign table at `floor(lon / 30)`; an out-of-range index
reads as JS `undefined`, i.e. `none`. -/
noncomputable def signFromLon (lonDeg : ℝ) : Option String :=
  let lon := jsRem (jsRem lonDeg 360 + 360) 360
  let k := ⌊lon / 30⌋
  if k < 0 then none else SIGNS_FR[k.toNat]?

/-- Interpolation of a body field into a JS template literal; printing an
arbitrary number is delegated to the collaborator record. -/
def jsValTemplate (env : Env) : JsVal → String
  | .undefined => "undefined"
  | .null => "null"
  | .str s => s
  | .num x => env.numToString x
  | .boolean b => if b then "true" else "false"

/-- The ISO candidate string
`` `${date}T${String(hh).padStart(2,"0")}:${String(mm).padStart(2,"0")}` ``
handed to luxon; this construction is identical in all three handlers. -/
noncomputable def isoCandidate (env : Env) (b : Body) : String :=
  let hasTime := isTimeStr b.time
  let hm := if hasTime then parseHM b.time.strVal else (some 12, some 0)
  jsValTemplate env b.date ++
    ("T" ++ pad2 (jsNumToString hm.1) ++ ":" ++ pad2 (jsNumToString hm.2))

/-- The first handler in `bigthree.js` (lines 61-107): POST only, explicit
coordinates, formula-A ascendant; a collaborator throw is caught by the
surrounding `try` and returned as a 500. -/
noncomputable def handler1 (env : Env) (req : Req) : Resp :=
  if req.method != "POST" then ⟨405, .errMsg "POST only"⟩
  else if !jsTruthy req.bodyOr.date || !req.bodyOr.lat.isNum || !req.bodyOr.lon.isNum then
    ⟨400, .errMsg "Missing date/lat/lon"⟩
  else
    match env.tzlookup req.bodyOr.lat.numVal req.bodyOr.lon.numVal with
    | .error e => ⟨500, .errMsg e⟩
    | .ok tz =>
      match env.fromISO (isoCandidate env req.bodyOr) tz with
      | none => ⟨400, .errMsg "Invalid date/time"⟩
      | some utc =>
        ⟨200, .chart tz (signFromLon (env.sunElon utc))
          (if isTimeStr req.bodyOr.time then signFromLon (env.moonElon utc) else none)
          (if isTimeStr req.bodyOr.time then
            signFromLon (ascendantLongitudeDeg1 (env.sidereal utc) (env.jd utc)
              req.bodyOr.lat.numVal req.bodyOr.lon.numVal)
           else none)⟩

/-- The handler in `part_000`: like the first `bigthree.js` handler but
with a GET health check, using the `part_000` ascendant copy. -/
noncomputable def handler3 (env : Env) (req : Req) : Resp :=
  if req.method == "GET" then
    ⟨200, .health true "Use POST with \x7bdate,time,lat,lon\x7d"⟩
  else if req.method != "POST" then ⟨405, .errMsg "POST only"⟩
  else if !jsTruthy req.bodyOr.date || !req.bodyOr.lat.isNum || !req.bodyOr.lon.isNum then
    ⟨400, .errMsg "Missing date/lat/lon"⟩
  else
    match env.tzlookup req.bodyOr.lat.numVal req.bodyOr.lon.numVal with
    | .error e => ⟨500, .errMsg e⟩
    | .ok tz =>
      match env.fromISO (isoCandidate env req.bodyOr) tz with
      | none => ⟨400, .errMsg "Invalid date/time"⟩
      | some utc =>
        ⟨200, .chart tz (signFromLon (env.sunElon utc))
          (if isTimeStr req.bodyOr.time then signFromLon (env.moonElon utc) else none)
          (if isTimeStr req.bodyOr.time then
            signFromLon (ascendantLongitudeDeg3 (env.sidereal utc) (env.jd utc)
              req.bodyOr.lat.numVal req.bodyOr.lon.numVal)
           else none)⟩

/-- The place argument handed to the geocoder when coordinates are absent:
`typeof place === "string" && place.trim()` truthy yields the trimmed
query. -/
def placeQuery : JsVal → Option String
  | .str s => if s.trim == "" then none else some s.trim
  | _ => none

/-- The coordinate-resolution step of the second `bigthree.js` handler
(lines 203-208): geocode the place only when `lat`/`lon` are not both
numbers and a non-blank place string is present. -/
noncomputable def geoResolve (env : Env) (b : Body) : Except String (JsVal × JsVal) :=
  match (!b.lat.isNum || !b.lon.isNum), placeQuery b.place with
  | true, some p => (env.geocode p).map (fun g => (JsVal.num g.1, JsVal.num g.2))
  | _, _ => .ok (b.lat, b.lon)

/-- The second handler in `bigthree.js` (lines 182-247): CORS preflight,
GET health check, optional geocoding, formula-B ascendant, and `lat`/`lon`
echoed in the 200 body. -/
noncomputable def handler2 (env : Env) (req : Req) : Resp :=
  if req.method == "OPTIONS" then ⟨200, .empty⟩
  else if req.method == "GET" then
    ⟨200, .health true "POST \x7bdate,time,place\x7d ou \x7bdate,time,lat,lon\x7d"⟩
  else if req.method != "POST" then ⟨405, .errMsg "POST only"⟩
  else if !jsTruthy req.bodyOr.date then ⟨400, .errMsg "Missing date"⟩
  else
    match geoResolve env req.bodyOr with
    | .error e => ⟨500, .errMsg e⟩
    | .ok (latV, lonV) =>
      if !latV.isNum || !lonV.isNum then ⟨400, .errMsg "Missing lat/lon or place"⟩
      else
        match env.tzlookup latV.numVal lonV.numVal with
        | .error e => ⟨500, .errMsg e⟩
        | .ok tz =>
          match env.fromISO (isoCandidate env req.bodyOr) tz with
          | none => ⟨400, .errMsg "Invalid date/time"⟩
          | some utc =>
            ⟨200, .chartGeo tz latV.numVal lonV.numVal
              (signFromLon (env.sunElon utc))
              (if isTimeStr req.bodyOr.time then signFromLon (env.moonElon utc) else none)
              (if isTimeStr req.bodyOr.time then
                signFromLon (ascendantLongitudeDeg2 (env.sidereal utc) (env.jd utc)
                  latV.numVal lonV.numVal)
               else none)⟩

lemma handler1_not_post {env : Env} {req : Req} (hm : req.method ≠ "POST") :
    handler1 env req = ⟨405, .errMsg "POST only"⟩ := by
  simp [handler1, hm]

lemma handler1_missing {env : Env} {req : Req} (hm : req.method = "POST")
    (hmiss : jsTruthy req.bodyOr.date = false ∨ req.bodyOr.lat.isNum = false ∨
      req.bodyOr.lon.isNum = false) :
    handler1 env req = ⟨400, .errMsg "Missing date/lat/lon"⟩ := by
  rcases hmiss with h | h | h <;> simp [handler1, hm, h]

lemma handler1_tz_error {env : Env} {req : Req} {e : String} (hm : req.method = "POST")
    (hd : jsTruthy req.bodyOr.date = true) (hla : req.bodyOr.lat.isNum = true)
    (hlo : req.bodyOr.lon.isNum = true)
    (htz : env.tzlookup req.bodyOr.lat.numVal req.bodyOr.lon.numVal = .error e) :
    handler1 env req = ⟨500, .errMsg e⟩ := by
  simp [handler1, hm, hd, hla, hlo, htz]

lemma handler1_invalid {env : Env} {req : Req} {tz : String} (hm : req.method = "POST")
    (hd : jsTruthy req.bodyOr.date = true) (hla : req.bodyOr.lat.isNum = true)
    (hlo : req.bodyOr.lon.isNum = true)
    (htz : env.tzlookup req.bodyOr.lat.numVal req.bodyOr.lon.numVal = .ok tz)
    (hiso : env.fromISO (isoCandidate env req.bodyOr) tz = none) :
    handler1 env req = ⟨400, .errMsg "Invalid date/time"⟩ := by
  simp [handler1, hm, hd, hla, hlo, htz, hiso]

lemma handler1_ok {env : Env} {req : Req} {tz : String} {utc : ℝ}
    (hm : req.method = "POST")
    (hd : jsTruthy req.bodyOr.date = true) (hla : req.bodyOr.lat.isNum = true)
    (hlo : req.bodyOr.lon.isNum = true)
    (htz : env.tzlookup req.bodyOr.lat.numVal req.bodyOr.lon.numVal = .ok tz)
    (hiso : env.fromISO (isoCandidate env req.bodyOr) tz = some utc) :
    handler1 env req = ⟨200, .chart tz (signFromLon (env.sunElon utc))
      (if isTimeStr req.bodyOr.time then signFromLon (env.moonElon utc) else none)
      (if isTimeStr req.bodyOr.time then
        signFromLon (ascendantLongitudeDeg1 (env.sidereal utc) (env.jd utc)
          req.bodyOr.lat.numVal req.bodyOr.lon.numVal)
       else none)⟩ := by
  simp [handler1, hm, hd, hla, hlo, htz, hiso]

/-- Inversion: a 200 chart response of the first handler comes from the
success branch. -/
lemma handler1_chart_inv {env : Env} {req : Req} {tz : String} {s m a : Option String}
    (h : handler1 env req = ⟨200, .chart tz s m a⟩) :
    ∃ utc, env.fromISO (isoCandidate env req.bodyOr) tz = some utc ∧
      s = signFromLon (env.sunElon utc) ∧
      m = (if isTimeStr req.bodyOr.time then signFromLon (env.moonElon utc) else none) ∧
      a = (if isTimeStr req.bodyOr.time then
        signFromLon (ascendantLongitudeDeg1 (env.sidereal utc) (env.jd utc)
          req.bodyOr.lat.numVal req.bodyOr.lon.numVal)
       else none) := by
  by_cases hm : req.method = "POST"
  · by_cases hd : jsTruthy req.bodyOr.date = true
    · by_cases hla : req.bodyOr.lat.isNum = true
      · by_cases hlo : req.bodyOr.lon.isNum = true
        · cases htz : env.tzlookup req.bodyOr.lat.numVal req.bodyOr.lon.numVal with
          | error e =>
            rw [handler1_tz_error hm hd hla hlo htz] at h
            simp at h
          | ok tz0 =>
            cases hiso : env.fromISO (isoCandidate env req.bodyOr) tz0 with
            | none =>
              rw [handler1_invalid hm hd hla hlo htz hiso] at h
              simp at h
            | some utc =>
              rw [handler1_ok hm hd hla hlo htz hiso] at h
              simp only [Resp.mk.injEq, RespBody.chart.injEq] at h
              obtain ⟨-, htz0, hs, hmo, ha⟩ := h
              subst htz0
              exact ⟨utc, hiso, hs.symm, hmo.symm, ha.symm⟩
        · rw [handler1_missing hm (Or.inr (Or.inr (by simpa using hlo)))] at h
          simp at h
      · rw [handler1_missing hm (Or.inr (Or.inl (by simpa using hla)))] at h
        simp at h
    · rw [handler1_missing hm (Or.inl (by simpa using hd))] at h
      simp at h
  · rw [handler1_not_post hm] at h
    simp at h

lemma handler3_get {env : Env} {req : Req} (hg : req.method = "GET") :
    handler3 env req = ⟨200, .health true "Use POST with \x7bdate,time,lat,lon\x7d"⟩ := by
  simp [handler3, hg]

lemma handler3_not_post {env : Env} {req : Req} (hg : req.method ≠ "GET")
    (hm : req.method ≠ "POST") :
    handler3 env req = ⟨405, .errMsg "POST only"⟩ := by
  simp [handler3, hg, hm]

lemma handler3_missing {env : Env} {req : Req} (hm : req.method = "POST")
    (hmiss : jsTruthy req.bodyOr.date = false ∨ req.bodyOr.lat.isNum = false ∨
      req.bodyOr.lon.isNum = false) :
    handler3 env req = ⟨400, .errMsg "Missing date/lat/lon"⟩ := by
  rcases hmiss with h | h | h <;> simp [handler3, hm, h]

lemma handler3_tz_error {env : Env} {req : Req} {e : String} (hm : req.method = "POST")
    (hd : jsTruthy req.bodyOr.date = true) (hla : req.bodyOr.lat.isNum = true)
    (hlo : req.bodyOr.lon.isNum = true)
    (htz : env.tzlookup req.bodyOr.lat.numVal req.bodyOr.lon.numVal = .error e) :
    handler3 env req = ⟨500, .errMsg e⟩ := by
  simp [handler3, hm, hd, hla, hlo, htz]

lemma handler3_invalid {env : Env} {req : Req} {tz : String} (hm : req.method = "POST")
    (hd : jsTruthy req.bodyOr.date = true) (hla : req.bodyOr.lat.isNum = true)
    (hlo : req.bodyOr.lon.isNum = true)
    (htz : env.tzlookup req.bodyOr.lat.numVal req.bodyOr.lon.numVal = .ok tz)
    (hiso : env.fromISO (isoCandidate env req.bodyOr) tz = none) :
    handler3 env req = ⟨400, .errMsg "Invalid date/time"⟩ := by
  simp [handler3, hm, hd, hla, hlo, htz, hiso]

lemma handler3_ok {env : Env} {req : Req} {tz : String} {utc : ℝ}
    (hm : req.method = "POST")
    (hd : jsTruthy req.bodyOr.date = true) (hla : req.bodyOr.lat.isNum = true)
    (hlo : req.bodyOr.lon.isNum = true)
    (htz : env.tzlookup req.bodyOr.lat.numVal req.bodyOr.lon.numVal = .ok tz)
    (hiso : env.fromISO (isoCandidate env req.bodyOr) tz = some utc) :
    handler3 env req = ⟨200, .chart tz (signFromLon (env.sunElon utc))
      (if isTimeStr req.bodyOr.time then signFromLon (env.moonElon utc) else none)
      (if isTimeStr req.bodyOr.time then
        signFromLon (ascendantLongitudeDeg3 (env.sidereal utc) (env.jd utc)
          req.bodyOr.lat.numVal req.bodyOr.lon.numVal)
       else none)⟩ := by
  simp [handler3, hm, hd, hla, hlo, htz, hiso]

/-- Inversion: a 200 chart response of the `part_000` handler comes from
the success branch. -/
lemma handler3_chart_inv {env : Env} {req : Req} {tz : String} {s m a : Option String}
    (h : handler3 env req = ⟨200, .chart tz s m a⟩) :
    ∃ utc, env.fromISO (isoCandidate env req.bodyOr) tz = some utc ∧
      s = signFromLon (env.sunElon utc) ∧
      m = (if isTimeStr req.bodyOr.time then signFromLon (env.moonElon utc) else none) ∧
      a = (if isTimeStr req.bodyOr.time then
        signFromLon (ascendantLongitudeDeg3 (env.sidereal utc) (env.jd utc)
          req.bodyOr.lat.numVal req.bodyOr.lon.numVal)
       else none) := by
  by_cases hg : req.method = "GET"
  · rw [handler3_get hg] at h
    simp at h
  by_cases hm : req.method = "POST"
  · by_cases hd : jsTruthy req.bodyOr.date = true
    · by_cases hla : req.bodyOr.lat.isNum = true
      · by_cases hlo : req.bodyOr.lon.isNum = true
        · cases htz : env.tzlookup req.bodyOr.lat.numVal req.bodyOr.lon.numVal with
          | error e =>
            rw [handler3_tz_error hm hd hla hlo htz] at h
            simp at h
          | ok tz0 =>
            cases hiso : env.fromISO (isoCandidate env req.bodyOr) tz0 with
            | none =>
              rw [handler3_invalid hm hd hla hlo htz hiso] at h
              simp at h
            | some utc =>
              rw [handler3_ok hm hd hla hlo htz hiso] at h
              simp only [Resp.mk.injEq, RespBody.chart.injEq] at h
              obtain ⟨-, htz0, hs, hmo, ha⟩ := h
              subst htz0
              exact ⟨utc, hiso, hs.symm, hmo.symm, ha.symm⟩
        · rw [handler3_missing hm (Or.inr (Or.inr (by simpa using hlo)))] at h
          simp at h
      · rw [handler3_missing hm (Or.inr (Or.inl (by simpa using hla)))] at h
        simp at h
    · rw [handler3_missing hm (Or.inl (by simpa using hd))] at h
      simp at h
  · rw [handler3_not_post hg hm] at h
    simp at h

lemma geoResolve_of_nums {env : Env} {b : Body} (hla : b.lat.isNum = true)
    (hlo : b.lon.isNum = true) : geoResolve env b = .ok (b.lat, b.lon) := by
  simp [geoResolve, hla, hlo]

lemma handler2_options {env : Env} {req : Req} (hm : req.method = "OPTIONS") :
    handler2 env req = ⟨200, .empty⟩ := by
  simp [handler2, hm]

lemma handler2_get {env : Env} {req : Req} (hm : req.method = "GET") :
    handler2 env req =
      ⟨200, .health true "POST \x7bdate,time,place\x7d ou \x7bdate,time,lat,lon\x7d"⟩ := by
  simp [handler2, hm]

lemma handler2_missing_date {env : Env} {req : Req} (hm : req.method = "POST")
    (hd : jsTruthy req.bodyOr.date = false) :
    handler2 env req = ⟨400, .errMsg "Missing date"⟩ := by
  simp [handler2, hm, hd]

lemma handler2_geo_error {env : Env} {req : Req} {e : String} (hm : req.method = "POST")
    (hd : jsTruthy req.bodyOr.date = true)
    (hgeo : geoResolve env req.bodyOr = .error e) :
    handler2 env req = ⟨500, .errMsg e⟩ := by
  simp [handler2, hm, hd, hgeo]

lemma handler2_missing_coords {env : Env} {req : Req} {latV lonV : JsVal}
    (hm : req.method = "POST") (hd : jsTruthy req.bodyOr.date = true)
    (hgeo : geoResolve env req.bodyOr = .ok (latV, lonV))
    (hmiss : latV.isNum = false ∨ lonV.isNum = false) :
    handler2 env req = ⟨400, .errMsg "Missing lat/lon or place"⟩ := by
  rcases hmiss with h | h <;> simp [handler2, hm, hd, hgeo, h]

lemma handler2_tz_error {env : Env} {req : Req} {latV lonV : JsVal} {e : String}
    (hm : req.method = "POST") (hd : jsTruthy req.bodyOr.date = true)
    (hgeo : geoResolve env req.bodyOr = .ok (latV, lonV))
    (hla : latV.isNum = true) (hlo : lonV.isNum = true)
    (htz : env.tzlookup latV.numVal lonV.numVal = .error e) :
    handler2 env req = ⟨500, .errMsg e⟩ := by
  simp [handler2, hm, hd, hgeo, hla, hlo, htz]

lemma handler2_invalid {env : Env} {req : Req} {latV lonV : JsVal} {tz : String}
    (hm : req.method = "POST") (hd : jsTruthy req.bodyOr.date = true)
    (hgeo : geoResolve env req.bodyOr = .ok (latV, lonV))
    (hla : latV.isNum = true) (hlo : lonV.isNum = true)
    (htz : env.tzlookup latV.numVal lonV.numVal = .ok tz)
    (hiso : env.fromISO (isoCandidate env req.bodyOr) tz = none) :
    handler2 env req = ⟨400, .errMsg "Invalid date/time"⟩ := by
  simp [handler2, hm, hd, hgeo, hla, hlo, htz, hiso]

lemma handler2_ok {env : Env} {req : Req} {latV lonV : JsVal} {tz : String} {utc : ℝ}
    (hm : req.method = "POST") (hd : jsTruthy req.bodyOr.date = true)
    (hgeo : geoResolve env req.bodyOr = .ok (latV, lonV))
    (hla : latV.isNum = true) (hlo : lonV.isNum = true)
    (htz : env.tzlookup latV.numVal lonV.numVal = .ok tz)
    (hiso : env.fromISO (isoCandidate env req.bodyOr) tz = some utc) :
    handler2 env req = ⟨200, .chartGeo tz latV.numVal lonV.numVal
      (signFromLon (env.sunElon utc))
      (if isTimeStr req.bodyOr.time then signFromLon (env.moonElon utc) else none)
      (if isTimeStr req.bodyOr.time then
        signFromLon (ascendantLongitudeDeg2 (env.sidereal utc) (env.jd utc)
          latV.numVal lonV.numVal)
       else none)⟩ := by
  simp [handler2, hm, hd, hgeo, hla, hlo, htz, hiso]

lemma handler2_not_post {env : Env} {req : Req} (ho : req.method ≠ "OPTIONS")
    (hg : req.method ≠ "GET") (hm : req.method ≠ "POST") :
    handler2 env req = ⟨405, .errMsg "POST only"⟩ := by
  simp [handler2, ho, hg, hm]

/-- Inversion: a 200 geo-chart response of the second handler comes from
the success branch. -/
lemma handler2_chart_inv {env : Env} {req : Req} {tz : String} {la lo : ℝ}
    {s m a : Option String}
    (h : handler2 env req = ⟨200, .chartGeo tz la lo s m a⟩) :
    ∃ utc, env.fromISO (isoCandidate env req.bodyOr) tz = some utc ∧
      s = signFromLon (env.sunElon utc) ∧
      m = (if isTimeStr req.bodyOr.time then signFromLon (env.moonElon utc) else none) ∧
      a = (if isTimeStr req.bodyOr.time then
        signFromLon (ascendantLongitudeDeg2 (env.sidereal utc) (env.jd utc) la lo)
       else none) := by
  by_cases ho : req.method = "OPTIONS"
  · rw [handler2_options ho] at h
    simp at h
  by_cases hg : req.method = "GET"
  · rw [handler2_get hg] at h
    simp at h
  by_cases hm : req.method = "POST"
  · by_cases hd : jsTruthy req.bodyOr.date = true
    · cases hgeo : geoResolve env req.bodyOr with
      | error e =>
        rw [handler2_geo_error hm hd hgeo] at h
        simp at h
      | ok p =>
        obtain ⟨latV, lonV⟩ := p
        by_cases hla : latV.isNum = true
        · by_cases hlo : lonV.isNum = true
          · cases htz : env.tzlookup latV.numVal lonV.numVal with
            | error e =>
              rw [handler2_tz_error hm hd hgeo hla hlo htz] at h
              simp at h
            | ok tz0 =>
              cases hiso : env.fromISO (isoCandidate env req.bodyOr) tz0 with
              | none =>
                rw [handler2_invalid hm hd hgeo hla hlo htz hiso] at h
                simp at h
              | some utc =>
                rw [handler2_ok hm hd hgeo hla hlo htz hiso] at h
                simp only [Resp.mk.injEq, RespBody.chartGeo.injEq] at h
                obtain ⟨-, htz0, hlat, hlon, hs, hmo, ha⟩ := h
                subst htz0
                subst hlat
                subst hlon
                exact ⟨utc, hiso, hs.symm, hmo.symm, ha.symm⟩
          · rw [handler2_missing_coords hm hd hgeo (Or.inr (by simpa using hlo))] at h
            simp at h
        · rw [handler2_missing_coords hm hd hgeo (Or.inl (by simpa using hla))] at h
          simp at h
    · rw [handler2_missing_date hm (by simpa using hd)] at h
      simp at h
  · have hnp : req.method ≠ "POST" := hm
    simp [handler2, ho, hg, hnp] at h

/-- The two-step normalization `((x % 360) + 360) % 360` used by
`signFromLon` also computes the specification normalization. -/
lemma jsDoubleRem_eq_spec (x : ℝ) :
    jsRem (jsRem x 360 + 360) 360 = specNormalizeDegrees x := by
  obtain ⟨k, hk⟩ := jsRem360_sub_int x
  obtain ⟨k2, hk2⟩ := jsRem360_sub_int (jsRem x 360 + 360)
  have h0 : 0 ≤ jsRem x 360 + 360 := by linarith [jsRem360_neg_lt x]
  refine eq_specNormalize_of x _ (k + k2 - 1) ?_
    (jsRem360_nonneg_of_nonneg h0) (jsRem360_lt _)
  rw [hk2, hk]
  push_cast
  ring

lemma signFromLon_eq (x : ℝ) :
    signFromLon x = SIGNS_FR[(⌊specNormalizeDegrees x / 30⌋).toNat]? := by
  have hnn : (0:ℤ) ≤ ⌊specNormalizeDegrees x / 30⌋ :=
    Int.floor_nonneg.mpr (div_nonneg (specNormalizeDegrees_nonneg x) (by norm_num))
  simp only [signFromLon, jsDoubleRem_eq_spec]
  rw [if_neg (not_lt.mpr hnn)]

lemma signIndex_lt (x : ℝ) : (⌊specNormalizeDegrees x / 30⌋).toNat < 12 := by
  have h1 : ⌊specNormalizeDegrees x / 30⌋ < 12 := by
    rw [Int.floor_lt]
    push_cast
    rw [div_lt_iff₀ (by norm_num : (0:ℝ) < 30)]
    linarith [specNormalizeDegrees_lt x]
  omega

/-- The sign table always answers: the normalized longitude lands in one
of the twelve sectors. -/
lemma signFromLon_isSome (x : ℝ) : (signFromLon x).isSome = true := by
  have hlen : (⌊specNormalizeDegrees x / 30⌋).toNat < SIGNS_FR.length := by
    have := signIndex_lt x
    simpa [SIGNS_FR] using this
  rw [signFromLon_eq, List.getElem?_eq_getElem hlen]
  rfl

lemma signFromLon_zero : signFromLon 0 = some "Bélier" := by
  rw [signFromLon_eq, specNormalize_eq_self (le_refl 0) (by norm_num)]
  rw [show ((⌊(0:ℝ) / 30⌋).toNat) = 0 by norm_num]
  decide

lemma signFromLon_thirty : signFromLon 30 = some "Taureau" := by
  rw [signFromLon_eq, specNormalize_eq_self (by norm_num) (by norm_num)]
  rw [show ((⌊(30:ℝ) / 30⌋).toNat) = 1 by norm_num]
  decide

lemma signFromLon_last : signFromLon 359.999 = some "Poissons" := by
  rw [signFromLon_eq, specNormalize_eq_self (by norm_num) (by norm_num)]
  have h11 : (⌊(359.999:ℝ) / 30⌋) = 11 := by norm_num
  rw [h11]
  decide

/-- A moon/ascendant slot of a 200 chart is filled exactly when the time
guard held. -/
lemma opt_if_isSome {c : Bool} {v : ℝ} :
    ((if c = true then signFromLon v else none).isSome = true) ↔ c = true := by
  cases c <;> simp [signFromLon_isSome]

/-- When the time is unknown, the handlers hand luxon local noon on the
requested date. -/
lemma isoCandidate_noTime {env : Env} {b : Body} (h : isTimeStr b.time = false) :
    isoCandidate env b = jsValTemplate env b.date ++ "T12:00" := by
  simp only [isoCandidate, h, Bool.false_eq_true, if_false]
  exact congrArg (fun t => jsValTemplate env b.date ++ t) (by decide)

lemma isoCandidate_time {env : Env} {b : Body} {t : String} (ht : b.time = .str t)
    (hc : strContainsColon t = true) :
    isoCandidate env b = jsValTemplate env b.date ++
      ("T" ++ pad2 (jsNumToString (parseHM t).1) ++ ":" ++
        pad2 (jsNumToString (parseHM t).2)) := by
  simp [isoCandidate, ht, isTimeStr, hc, JsVal.strVal]

/-- If an hour or minute fragment fails to parse, the ISO candidate
contains a literal `"NaN"`, and a luxon model that rejects every such
string reports an invalid date-time. -/
lemma fromISO_isoCandidate_none {env : Env} {b : Body} {t tz : String}
    (ht : b.time = .str t) (hc : strContainsColon t = true)
    (hnan : (parseHM t).1 = none ∨ (parseHM t).2 = none)
    (hfrom : ∀ z s1 s2, env.fromISO (s1 ++ "NaN" ++ s2) z = none) :
    env.fromISO (isoCandidate env b) tz = none := by
  rw [isoCandidate_time ht hc]
  rcases hnan with h | h
  · rw [h]
    have heq : jsValTemplate env b.date ++
        ("T" ++ pad2 (jsNumToString none) ++ ":" ++ pad2 (jsNumToString (parseHM t).2)) =
        (jsValTemplate env b.date ++ "T") ++ "NaN" ++
          (":" ++ pad2 (jsNumToString (parseHM t).2)) := by
      rw [show pad2 (jsNumToString none) = "NaN" from by decide]
      simp only [← String.append_assoc]
    rw [heq]
    exact hfrom _ _ _
  · rw [h]
    have heq : jsValTemplate env b.date ++
        ("T" ++ pad2 (jsNumToString (parseHM t).1) ++ ":" ++ pad2 (jsNumToString none)) =
        (jsValTemplate env b.date ++
          ("T" ++ pad2 (jsNumToString (parseHM t).1) ++ ":")) ++ "NaN" ++ "" := by
      rw [show pad2 (jsNumToString none) = "NaN" from by decide]
      simp only [← String.append_assoc, String.append_empty]
    rw [heq]
    exact hfrom _ _ _

/-- A benign collaborator record used to instantiate the theorems on
concrete inputs. -/
noncomputable def cEnv : Env where
  tzlookup := fun _ _ => .ok "UTC"
  fromISO := fun _ _ => some 0
  sunElon := fun _ => 0
  moonElon := fun _ => 0
  sidereal := fun _ => 0
  jd := fun _ => 2451545
  geocode := fun _ => .error "geocoding failed"
  numToString := fun _ => ""

/-- A collaborator record whose calendar collaborator rejects every
candidate (every date-time is invalid). -/
noncomputable def cEnvNone : Env := { cEnv with fromISO := fun _ _ => none }

/-- A collaborator record whose `tz-lookup` throws on out-of-range
coordinates, as the real library does. -/
noncomputable def cEnvRange : Env :=
  { cEnv with tzlookup := fun la lo =>
      if la < -90 ∨ 90 < la ∨ lo < -180 ∨ 180 < lo then .error "invalid coordinates"
      else .ok "UTC" }

noncomputable def bodyTime : Body where
  date := .str "2000-01-01"
  time := .str "12:00"
  lat := .num 0
  lon := .num 0

noncomputable def bodyNoTime : Body where
  date := .str "2000-01-01"
  lat := .num 0
  lon := .num 0

noncomputable def bodyBadTime : Body where
  date := .str "2000-01-01"
  time := .str "ab:cd"
  lat := .num 0
  lon := .num 0

noncomputable def bodyLat100 : Body where
  date := .str "2000-01-01"
  lat := .num 100
  lon := .num 0

noncomputable def bodyBadDate : Body where
  date := .str "2021-02-30"
  lat := .num 100
  lon := .num 0

noncomputable def reqTime : Req := { method := "POST", body := some bodyTime }

noncomputable def reqNoTime : Req := { method := "POST", body := some bodyNoTime }

noncomputable def reqBadTime : Req := { method := "POST", body := some bodyBadTime }

noncomputable def reqLat100 : Req := { method := "POST", body := some bodyLat100 }

/-- POST with the calendrically impossible date `"2021-02-30"` and numeric
but out-of-range latitude 100. -/
noncomputable def reqBadDate : Req := { method := "POST", body := some bodyBadDate }

/-- Collaborator record combining the range-throwing `tz-lookup` with a
calendar collaborator that rejects every candidate (in particular the
malformed `"2021-02-30"`). -/
noncomputable def cEnvStrict : Env := { cEnvRange with fromISO := fun _ _ => none }

def reqGet : Req := { method := "GET" }

/-- C1, counterexample: the claim asserts that all three ascendant
implementations return the spec formula
`normalizeDegrees(deg(atan2(sin LST cos eps - tan lat sin eps, cos LST)))`;
the second `bigthree.js` implementation violates it at the instant with
sidereal time 0 h and Julian date 2451545 (J2000), latitude 0, longitude 0,
where it returns 90 while the claimed formula yields 0. -/
theorem c1_counterexample :
    ascendantLongitudeDeg2 0 2451545 0 0 ≠ specAscendantFormulaA 0 2451545 0 0 := by
  rw [asc2_at0, specA_at0]
  norm_num

/-- C1, amended: for every instant (given through the collaborator outputs
`st` = sidereal hours and `jd` = Julian date), every latitude strictly
between -90 and 90 and every longitude, the first `bigthree.js`
implementation and the `part_000` implementation return the claimed
formula `normalizeDegrees(deg(atan2(sin LST cos eps - tan lat sin eps,
cos LST)))`, while the second `bigthree.js` implementation instead returns
`normalizeDegrees(deg(atan2(cos LST, -(sin LST cos eps + tan lat sin eps))))`. -/
theorem c1_theorem (st jd lat lon : ℝ) (_hlat1 : -90 < lat) (_hlat2 : lat < 90) :
    ascendantLongitudeDeg1 st jd lat lon = specAscendantFormulaA st jd lat lon ∧
    ascendantLongitudeDeg3 st jd lat lon = specAscendantFormulaA st jd lat lon ∧
    ascendantLongitudeDeg2 st jd lat lon = specAscendantFormulaB st jd lat lon :=
  ⟨asc1_eq_specA st jd lat lon,
    (asc3_eq_asc1 st jd lat lon).trans (asc1_eq_specA st jd lat lon),
    asc2_eq_specB st jd lat lon⟩

/-- C1, witness: the amended theorem instantiated at sidereal time 0 h,
Julian date 2451545, latitude 0 (inside the open interval), longitude 0. -/
theorem c1_witness :
    ((-90:ℝ) < 0 ∧ (0:ℝ) < 90) ∧
      (ascendantLongitudeDeg1 0 2451545 0 0 = specAscendantFormulaA 0 2451545 0 0 ∧
       ascendantLongitudeDeg3 0 2451545 0 0 = specAscendantFormulaA 0 2451545 0 0 ∧
       ascendantLongitudeDeg2 0 2451545 0 0 = specAscendantFormulaB 0 2451545 0 0) :=
  ⟨⟨by norm_num, by norm_num⟩, c1_theorem 0 2451545 0 0 (by norm_num) (by norm_num)⟩

/-- C2, counterexample: the two ascendant-formula variants are not
equivalent: at sidereal time 0 h, Julian date 2451545, latitude 0,
longitude 0 they give different normalized ascendant longitudes. -/
theorem c2_counterexample :
    ascendantLongitudeDeg1 0 2451545 0 0 ≠ ascendantLongitudeDeg2 0 2451545 0 0 := by
  rw [asc1_at0, asc2_at0]
  norm_num

/-- C2, amended: the two variants are not equivalent; at an instant with
sidereal time 0 h and Julian date 2451545, latitude 0 and longitude 0 the
first (`bigthree.js` first handler and `part_000`) yields 0 degrees while
the second (`bigthree.js` second handler) yields 90 degrees. -/
theorem c2_theorem :
    ascendantLongitudeDeg1 0 2451545 0 0 = 0 ∧
    ascendantLongitudeDeg3 0 2451545 0 0 = 0 ∧
    ascendantLongitudeDeg2 0 2451545 0 0 = 90 :=
  ⟨asc1_at0, (asc3_eq_asc1 0 2451545 0 0).trans asc1_at0, asc2_at0⟩

/-- C4: `signFromLon` normalizes its input into `[0,360)` and returns the
sign at index `floor(normalized/30)` of the fixed twelve-name table; the
index always lies in `{0..11}`, and the sector boundaries are half-open
lower-inclusive: 0 maps to the first sign, 30 to the second, 359.999 to
the twelfth. -/
theorem c4_theorem :
    (∀ x : ℝ, signFromLon x = SIGNS_FR[(⌊specNormalizeDegrees x / 30⌋).toNat]?) ∧
    (∀ x : ℝ, 0 ≤ specNormalizeDegrees x ∧ specNormalizeDegrees x < 360) ∧
    (∀ x : ℝ, (⌊specNormalizeDegrees x / 30⌋).toNat < 12) ∧
    signFromLon 0 = some "Bélier" ∧
    signFromLon 30 = some "Taureau" ∧
    signFromLon 359.999 = some "Poissons" :=
  ⟨signFromLon_eq,
    fun x => ⟨specNormalizeDegrees_nonneg x, specNormalizeDegrees_lt x⟩,
    signIndex_lt, signFromLon_zero, signFromLon_thirty, signFromLon_last⟩

/-- C3: in every 200 chart response of any of the three handlers, the sun
sign is present, and the moon sign and ascendant sign are each present
exactly when the request time is a string containing a colon. -/
theorem c3_theorem (env : Env) (req : Req) :
    (∀ tz s m a, handler1 env req = ⟨200, .chart tz s m a⟩ →
      s.isSome = true ∧ (m.isSome = true ↔ isTimeStr req.bodyOr.time = true) ∧
        (a.isSome = true ↔ isTimeStr req.bodyOr.time = true)) ∧
    (∀ tz s m a, handler3 env req = ⟨200, .chart tz s m a⟩ →
      s.isSome = true ∧ (m.isSome = true ↔ isTimeStr req.bodyOr.time = true) ∧
        (a.isSome = true ↔ isTimeStr req.bodyOr.time = true)) ∧
    (∀ tz la lo s m a, handler2 env req = ⟨200, .chartGeo tz la lo s m a⟩ →
      s.isSome = true ∧ (m.isSome = true ↔ isTimeStr req.bodyOr.time = true) ∧
        (a.isSome = true ↔ isTimeStr req.bodyOr.time = true)) := by
  refine ⟨?_, ?_, ?_⟩
  · intro tz s m a h
    obtain ⟨utc, -, hs, hm, ha⟩ := handler1_chart_inv h
    subst hs
    subst hm
    subst ha
    exact ⟨signFromLon_isSome _, opt_if_isSome, opt_if_isSome⟩
  · intro tz s m a h
    obtain ⟨utc, -, hs, hm, ha⟩ := handler3_chart_inv h
    subst hs
    subst hm
    subst ha
    exact ⟨signFromLon_isSome _, opt_if_isSome, opt_if_isSome⟩
  · intro tz la lo s m a h
    obtain ⟨utc, -, hs, hm, ha⟩ := handler2_chart_inv h
    subst hs
    subst hm
    subst ha
    exact ⟨signFromLon_isSome _, opt_if_isSome, opt_if_isSome⟩

/-- C3, witness: instantiated for the first handler on a benign
collaborator record and a POST request carrying `time = "12:00"`. -/
theorem c3_witness :
    (signFromLon (cEnv.sunElon 0)).isSome = true ∧
    ((if isTimeStr reqTime.bodyOr.time = true then signFromLon (cEnv.moonElon 0)
        else none).isSome = true ↔ isTimeStr reqTime.bodyOr.time = true) ∧
    ((if isTimeStr reqTime.bodyOr.time = true then
        signFromLon (ascendantLongitudeDeg1 (cEnv.sidereal 0) (cEnv.jd 0)
          reqTime.bodyOr.lat.numVal reqTime.bodyOr.lon.numVal)
        else none).isSome = true ↔ isTimeStr reqTime.bodyOr.time = true) :=
  (c3_theorem cEnv reqTime).1 "UTC" _ _ _
    (handler1_ok rfl (by decide) rfl rfl rfl rfl)

/-- C5: when the time field is absent or colon-free, the handlers hand the
calendar collaborator local noon (`date ++ "T12:00"`) in the resolved
zone, and in any resulting 200 chart the noon instant is used only for
the sun sign: the moon and ascendant slots are null. -/
theorem c5_theorem (env : Env) (req : Req)
    (hnt : isTimeStr req.bodyOr.time = false) :
    isoCandidate env req.bodyOr = jsValTemplate env req.bodyOr.date ++ "T12:00" ∧
    (∀ tz s m a, handler1 env req = ⟨200, .chart tz s m a⟩ →
      m = none ∧ a = none ∧
      ∃ utc, env.fromISO (jsValTemplate env req.bodyOr.date ++ "T12:00") tz = some utc ∧
        s = signFromLon (env.sunElon utc)) ∧
    (∀ tz s m a, handler3 env req = ⟨200, .chart tz s m a⟩ →
      m = none ∧ a = none ∧
      ∃ utc, env.fromISO (jsValTemplate env req.bodyOr.date ++ "T12:00") tz = some utc ∧
        s = signFromLon (env.sunElon utc)) ∧
    (∀ tz la lo s m a, handler2 env req = ⟨200, .chartGeo tz la lo s m a⟩ →
      m = none ∧ a = none ∧
      ∃ utc, env.fromISO (jsValTemplate env req.bodyOr.date ++ "T12:00") tz = some utc ∧
        s = signFromLon (env.sunElon utc)) := by
  have hiso := @isoCandidate_noTime env req.bodyOr hnt
  refine ⟨hiso, ?_, ?_, ?_⟩
  · intro tz s m a h
    obtain ⟨utc, hfrom, hs, hm, ha⟩ := handler1_chart_inv h
    rw [hiso] at hfrom
    simp only [hnt, Bool.false_eq_true, if_false] at hm ha
    exact ⟨hm, ha, utc, hfrom, hs⟩
  · intro tz s m a h
    obtain ⟨utc, hfrom, hs, hm, ha⟩ := handler3_chart_inv h
    rw [hiso] at hfrom
    simp only [hnt, Bool.false_eq_true, if_false] at hm ha
    exact ⟨hm, ha, utc, hfrom, hs⟩
  · intro tz la lo s m a h
    obtain ⟨utc, hfrom, hs, hm, ha⟩ := handler2_chart_inv h
    rw [hiso] at hfrom
    simp only [hnt, Bool.false_eq_true, if_false] at hm ha
    exact ⟨hm, ha, utc, hfrom, hs⟩

/-- C5, witness: a time-unknown POST request on the benign collaborator
record; its hypothesis holds and the noon ISO candidate is produced. -/
theorem c5_witness :
    isTimeStr reqNoTime.bodyOr.time = false ∧
    isoCandidate cEnv reqNoTime.bodyOr =
      jsValTemplate cEnv reqNoTime.bodyOr.date ++ "T12:00" :=
  ⟨rfl, (c5_theorem cEnv reqNoTime rfl).1⟩

/-- C6, counterexample: the claim asserts that a malformed date yields a
400 "regardless of other fields"; with the date `"2021-02-30"` (which the
calendar collaborator rejects — first conjunct) and numeric out-of-range
latitude 100, the `tz-lookup` throw happens first and the first handler
returns status 500, not 400. -/
theorem c6_counterexample :
    cEnvStrict.fromISO (isoCandidate cEnvStrict reqBadDate.bodyOr) "UTC" = none ∧
    handler1 cEnvStrict reqBadDate = ⟨500, .errMsg "invalid coordinates"⟩ ∧
    (handler1 cEnvStrict reqBadDate).status ≠ 400 := by
  have htz : cEnvStrict.tzlookup reqBadDate.bodyOr.lat.numVal
      reqBadDate.bodyOr.lon.numVal = .error "invalid coordinates" := by
    show (if (100:ℝ) < -90 ∨ 90 < (100:ℝ) ∨ (0:ℝ) < -180 ∨ 180 < (0:ℝ) then
        (Except.error "invalid coordinates" : Except String String)
      else Except.ok "UTC") = Except.error "invalid coordinates"
    rw [if_pos (by norm_num)]
  have h := @handler1_tz_error cEnvStrict reqBadDate "invalid coordinates"
    rfl (by decide) rfl rfl htz
  refine ⟨rfl, h, ?_⟩
  rw [h]
  decide

/-- C6, amended: under POST, an absent (falsy) date yields a 400 error in
all three handlers; when latitude and longitude are numeric and the
timezone collaborator returns a zone, a date/time the calendar
collaborator rejects — a malformed date string such as `"2021-02-30"` or
a calendrically impossible local timestamp in that zone — yields a 400
"Invalid date/time" error in all three handlers and no chart is returned;
but when the timezone collaborator throws instead (numeric out-of-range
coordinates), the handlers answer 500, not 400, even for a malformed
date. -/
theorem c6_theorem (env : Env) (req : Req) (hm : req.method = "POST") :
    (jsTruthy req.bodyOr.date = false →
      handler1 env req = ⟨400, .errMsg "Missing date/lat/lon"⟩ ∧
      handler3 env req = ⟨400, .errMsg "Missing date/lat/lon"⟩ ∧
      handler2 env req = ⟨400, .errMsg "Missing date"⟩) ∧
    (∀ tz, jsTruthy req.bodyOr.date = true → req.bodyOr.lat.isNum = true →
      req.bodyOr.lon.isNum = true →
      env.tzlookup req.bodyOr.lat.numVal req.bodyOr.lon.numVal = .ok tz →
      env.fromISO (isoCandidate env req.bodyOr) tz = none →
      handler1 env req = ⟨400, .errMsg "Invalid date/time"⟩ ∧
      handler3 env req = ⟨400, .errMsg "Invalid date/time"⟩ ∧
      handler2 env req = ⟨400, .errMsg "Invalid date/time"⟩) ∧
    (∀ e, jsTruthy req.bodyOr.date = true → req.bodyOr.lat.isNum = true →
      req.bodyOr.lon.isNum = true →
      env.tzlookup req.bodyOr.lat.numVal req.bodyOr.lon.numVal = .error e →
      handler1 env req = ⟨500, .errMsg e⟩ ∧
      handler3 env req = ⟨500, .errMsg e⟩ ∧
      handler2 env req = ⟨500, .errMsg e⟩) := by
  refine ⟨?_, ?_, ?_⟩
  · intro hd
    exact ⟨handler1_missing hm (Or.inl hd), handler3_missing hm (Or.inl hd),
      handler2_missing_date hm hd⟩
  · intro tz hd hla hlo htz hiso
    exact ⟨handler1_invalid hm hd hla hlo htz hiso,
      handler3_invalid hm hd hla hlo htz hiso,
      handler2_invalid hm hd (geoResolve_of_nums hla hlo) hla hlo htz hiso⟩
  · intro e hd hla hlo htz
    exact ⟨handler1_tz_error hm hd hla hlo htz,
      handler3_tz_error hm hd hla hlo htz,
      handler2_tz_error hm hd (geoResolve_of_nums hla hlo) hla hlo htz⟩

/-- C6, witness: a collaborator record that rejects every date-time (as
luxon does for `"2021-02-30"` or a DST-gap time) makes all three handlers
answer 400 "Invalid date/time" on an otherwise well-formed POST. -/
theorem c6_witness :
    handler1 cEnvNone reqTime = ⟨400, .errMsg "Invalid date/time"⟩ ∧
    handler3 cEnvNone reqTime = ⟨400, .errMsg "Invalid date/time"⟩ ∧
    handler2 cEnvNone reqTime = ⟨400, .errMsg "Invalid date/time"⟩ :=
  (c6_theorem cEnvNone reqTime rfl).2.1 "UTC" (by decide) rfl rfl rfl rfl

/-- C7, counterexample: the claim asserts that a POST with numeric but
out-of-range coordinates is reported as a 400 user error; with a
`tz-lookup` collaborator that throws on the out-of-range latitude 100,
the first handler returns status 500, not 400 (the throw is only caught
by the generic catch-all). -/
theorem c7_counterexample :
    handler1 cEnvRange reqLat100 = ⟨500, .errMsg "invalid coordinates"⟩ ∧
    (handler1 cEnvRange reqLat100).status ≠ 400 := by
  have htz : cEnvRange.tzlookup reqLat100.bodyOr.lat.numVal reqLat100.bodyOr.lon.numVal =
      .error "invalid coordinates" := by
    show (if (100:ℝ) < -90 ∨ 90 < (100:ℝ) ∨ (0:ℝ) < -180 ∨ 180 < (0:ℝ) then
        (Except.error "invalid coordinates" : Except String String)
      else Except.ok "UTC") = Except.error "invalid coordinates"
    rw [if_pos (by norm_num)]
  have h := @handler1_tz_error cEnvRange reqLat100 "invalid coordinates"
    rfl (by decide) rfl rfl htz
  refine ⟨h, ?_⟩
  rw [h]
  decide

/-- C7, amended: when the timezone collaborator throws on a POST request
with numeric coordinates (as `tz-lookup` does for out-of-range values),
every handler reports the failure as an HTTP 500 internal error carrying
the thrown message, not as a 400 user error. -/
theorem c7_theorem (env : Env) (req : Req) (e : String) (hm : req.method = "POST")
    (hd : jsTruthy req.bodyOr.date = true) (hla : req.bodyOr.lat.isNum = true)
    (hlo : req.bodyOr.lon.isNum = true)
    (htz : env.tzlookup req.bodyOr.lat.numVal req.bodyOr.lon.numVal = .error e) :
    handler1 env req = ⟨500, .errMsg e⟩ ∧ handler3 env req = ⟨500, .errMsg e⟩ ∧
    handler2 env req = ⟨500, .errMsg e⟩ :=
  ⟨handler1_tz_error hm hd hla hlo htz, handler3_tz_error hm hd hla hlo htz,
    handler2_tz_error hm hd (geoResolve_of_nums hla hlo) hla hlo htz⟩

/-- C7, witness: the amended theorem instantiated at latitude 100 with the
range-checking `tz-lookup` model. -/
theorem c7_witness :
    handler1 cEnvRange reqLat100 = ⟨500, .errMsg "invalid coordinates"⟩ ∧
    handler3 cEnvRange reqLat100 = ⟨500, .errMsg "invalid coordinates"⟩ ∧
    handler2 cEnvRange reqLat100 = ⟨500, .errMsg "invalid coordinates"⟩ :=
  c7_theorem cEnvRange reqLat100 "invalid coordinates" rfl (by decide) rfl rfl
    (by
      show (if (100:ℝ) < -90 ∨ 90 < (100:ℝ) ∨ (0:ℝ) < -180 ∨ 180 < (0:ℝ) then
          (Except.error "invalid coordinates" : Except String String)
        else Except.ok "UTC") = Except.error "invalid coordinates"
      rw [if_pos (by norm_num)])

/-- C8, counterexample: the claim asserts every handler variant answers a
GET with status 200; the first `bigthree.js` handler has no GET branch and
answers 405 "POST only". -/
theorem c8_counterexample :
    handler1 cEnv reqGet = ⟨405, .errMsg "POST only"⟩ ∧
    (handler1 cEnv reqGet).status ≠ 200 := by
  have h := @handler1_not_post cEnv reqGet (by decide)
  refine ⟨h, ?_⟩
  rw [h]
  decide

/-- C8, amended: on a GET request the geocoding handler and the `part_000`
handler answer 200 with an `ok`/`hint` health body, while the first
`bigthree.js` handler answers 405 "POST only". -/
theorem c8_theorem (env : Env) (req : Req) (hg : req.method = "GET") :
    handler2 env req =
      ⟨200, .health true "POST \x7bdate,time,place\x7d ou \x7bdate,time,lat,lon\x7d"⟩ ∧
    handler3 env req = ⟨200, .health true "Use POST with \x7bdate,time,lat,lon\x7d"⟩ ∧
    handler1 env req = ⟨405, .errMsg "POST only"⟩ :=
  ⟨handler2_get hg, handler3_get hg, handler1_not_post (by rw [hg]; decide)⟩

/-- C8, witness: the amended theorem instantiated on a concrete GET
request. -/
theorem c8_witness :
    handler2 cEnv reqGet =
      ⟨200, .health true "POST \x7bdate,time,place\x7d ou \x7bdate,time,lat,lon\x7d"⟩ ∧
    handler3 cEnv reqGet = ⟨200, .health true "Use POST with \x7bdate,time,lat,lon\x7d"⟩ ∧
    handler1 cEnv reqGet = ⟨405, .errMsg "POST only"⟩ :=
  c8_theorem cEnv reqGet rfl

/-- C9: a POST whose time string contains a colon but whose hour or minute
fragment does not parse as a number produces an ISO candidate containing
a literal `"NaN"`; with a calendar collaborator that (like luxon) rejects
every such string, all three handlers answer 400 "Invalid date/time"
rather than falling back to the noon default. -/
theorem c9_theorem (env : Env) (req : Req) (t tz : String)
    (hm : req.method = "POST") (hd : jsTruthy req.bodyOr.date = true)
    (hla : req.bodyOr.lat.isNum = true) (hlo : req.bodyOr.lon.isNum = true)
    (ht : req.bodyOr.time = .str t) (hc : strContainsColon t = true)
    (hnan : (parseHM t).1 = none ∨ (parseHM t).2 = none)
    (htz : env.tzlookup req.bodyOr.lat.numVal req.bodyOr.lon.numVal = .ok tz)
    (hfrom : ∀ z s1 s2, env.fromISO (s1 ++ "NaN" ++ s2) z = none) :
    handler1 env req = ⟨400, .errMsg "Invalid date/time"⟩ ∧
    handler3 env req = ⟨400, .errMsg "Invalid date/time"⟩ ∧
    handler2 env req = ⟨400, .errMsg "Invalid date/time"⟩ := by
  have hiso : env.fromISO (isoCandidate env req.bodyOr) tz = none :=
    fromISO_isoCandidate_none ht hc hnan hfrom
  exact ⟨handler1_invalid hm hd hla hlo htz hiso,
    handler3_invalid hm hd hla hlo htz hiso,
    handler2_invalid hm hd (geoResolve_of_nums hla hlo) hla hlo htz hiso⟩

/-- C9, witness: instantiated at `time = "ab:cd"` with the
rejecting calendar collaborator. -/
theorem c9_witness :
    handler1 cEnvNone reqBadTime = ⟨400, .errMsg "Invalid date/time"⟩ ∧
    handler3 cEnvNone reqBadTime = ⟨400, .errMsg "Invalid date/time"⟩ ∧
    handler2 cEnvNone reqBadTime = ⟨400, .errMsg "Invalid date/time"⟩ :=
  c9_theorem cEnvNone reqBadTime "ab:cd" "UTC" rfl (by decide) rfl rfl rfl
    (by decide) (Or.inl (by decide)) rfl (fun _ _ _ => rfl)

/-- Request with the `place` field replaced. -/
def Req.withPlace (r : Req) (p : JsVal) : Req :=
  { r with body := some { r.bodyOr with place := p } }

/-- Collaborator record with the geocoder replaced. -/
def Env.withGeocode (e : Env) (g : String → Except String (ℝ × ℝ)) : Env :=
  { e with geocode := g }

/-- C10: in the geocoding handler, when the body carries numeric `lat` and
`lon` the geocoder is never consulted and the `place` field has no
influence: the response is unchanged under any replacement of the
geocoder function and of the `place` value. -/
theorem c10_theorem (env : Env) (req : Req) (g : String → Except String (ℝ × ℝ))
    (p1 p2 : JsVal) (hla : req.bodyOr.lat.isNum = true)
    (hlo : req.bodyOr.lon.isNum = true) :
    handler2 (env.withGeocode g) (req.withPlace p1) = handler2 env (req.withPlace p2) := by
  have hme1 : (req.withPlace p1).method = req.method := rfl
  have hme2 : (req.withPlace p2).method = req.method := rfl
  have hd1eq : (req.withPlace p1).bodyOr.date = req.bodyOr.date := rfl
  have hd2eq : (req.withPlace p2).bodyOr.date = req.bodyOr.date := rfl
  by_cases ho : req.method = "OPTIONS"
  · rw [@handler2_options (env.withGeocode g) (req.withPlace p1) (hme1.trans ho),
      @handler2_options env (req.withPlace p2) (hme2.trans ho)]
  by_cases hg2 : req.method = "GET"
  · rw [@handler2_get (env.withGeocode g) (req.withPlace p1) (hme1.trans hg2),
      @handler2_get env (req.withPlace p2) (hme2.trans hg2)]
  by_cases hp : req.method = "POST"
  · have hp1 : (req.withPlace p1).method = "POST" := hme1.trans hp
    have hp2 : (req.withPlace p2).method = "POST" := hme2.trans hp
    by_cases hd : jsTruthy req.bodyOr.date = true
    · have hd1 : jsTruthy (req.withPlace p1).bodyOr.date = true := by rw [hd1eq]; exact hd
      have hd2 : jsTruthy (req.withPlace p2).bodyOr.date = true := by rw [hd2eq]; exact hd
      have hla1 : (req.withPlace p1).bodyOr.lat.isNum = true := hla
      have hlo1 : (req.withPlace p1).bodyOr.lon.isNum = true := hlo
      have hla2 : (req.withPlace p2).bodyOr.lat.isNum = true := hla
      have hlo2 : (req.withPlace p2).bodyOr.lon.isNum = true := hlo
      have hgeo1 : geoResolve (env.withGeocode g) (req.withPlace p1).bodyOr =
          .ok (req.bodyOr.lat, req.bodyOr.lon) := geoResolve_of_nums hla1 hlo1
      have hgeo2 : geoResolve env (req.withPlace p2).bodyOr =
          .ok (req.bodyOr.lat, req.bodyOr.lon) := geoResolve_of_nums hla2 hlo2
      cases htz : env.tzlookup req.bodyOr.lat.numVal req.bodyOr.lon.numVal with
      | error e =>
        have htz1 : (env.withGeocode g).tzlookup req.bodyOr.lat.numVal
            req.bodyOr.lon.numVal = .error e := htz
        rw [handler2_tz_error hp1 hd1 hgeo1 hla hlo htz1,
          handler2_tz_error hp2 hd2 hgeo2 hla hlo htz]
      | ok tz =>
        have htz1 : (env.withGeocode g).tzlookup req.bodyOr.lat.numVal
            req.bodyOr.lon.numVal = .ok tz := htz
        cases hiso : env.fromISO (isoCandidate env req.bodyOr) tz with
        | none =>
          have hiso1 : (env.withGeocode g).fromISO
              (isoCandidate (env.withGeocode g) (req.withPlace p1).bodyOr) tz = none := hiso
          have hiso2 : env.fromISO
              (isoCandidate env (req.withPlace p2).bodyOr) tz = none := hiso
          rw [handler2_invalid hp1 hd1 hgeo1 hla hlo htz1 hiso1,
            handler2_invalid hp2 hd2 hgeo2 hla hlo htz hiso2]
        | some utc =>
          have hiso1 : (env.withGeocode g).fromISO
              (isoCandidate (env.withGeocode g) (req.withPlace p1).bodyOr) tz = some utc := hiso
          have hiso2 : env.fromISO
              (isoCandidate env (req.withPlace p2).bodyOr) tz = some utc := hiso
          rw [handler2_ok hp1 hd1 hgeo1 hla hlo htz1 hiso1,
            handler2_ok hp2 hd2 hgeo2 hla hlo htz hiso2]
          rfl
    · have hd1 : jsTruthy (req.withPlace p1).bodyOr.date = false := by
        rw [hd1eq]
        simpa using hd
      have hd2 : jsTruthy (req.withPlace p2).bodyOr.date = false := by
        rw [hd2eq]
        simpa using hd
      rw [handler2_missing_date hp1 hd1, handler2_missing_date hp2 hd2]
  · rw [@handler2_not_post (env.withGeocode g) (req.withPlace p1)
        (fun h => ho (hme1.symm.trans h)) (fun h => hg2 (hme1.symm.trans h))
        (fun h => hp (hme1.symm.trans h)),
      @handler2_not_post env (req.withPlace p2)
        (fun h => ho (hme2.symm.trans h)) (fun h => hg2 (hme2.symm.trans h))
        (fun h => hp (hme2.symm.trans h))]

/-- C10, witness: a concrete request carrying coordinates: swapping both
the geocoder and the `place` value leaves the response unchanged. -/
theorem c10_witness :
    handler2 (cEnv.withGeocode (fun _ => .error "down"))
        (reqTime.withPlace (.str "Paris")) =
      handler2 cEnv (reqTime.withPlace .undefined) :=
  c10_theorem cEnv reqTime (fun _ => .error "down") (.str "Paris") .undefined rfl rfl

end BigThree
